import Mathlib

/-
Verification of the SyftBox proxy server (proxy-server-sample/proxy_server.py).

The source is a single FastAPI endpoint `proxy_download`: it receives a
ProxyRequest (url, optional key defaulting to "unknown"), performs one
outbound HTTP GET via httpx with a User-Agent header and a 60 second
timeout, and maps the outcome to a Response:
  - upstream status 200: the upstream bytes, upstream content-type (or
    application/octet-stream), plus a Cache-Control: no-cache header;
  - upstream status other than 200: that status, a small JSON error body;
  - httpx.TimeoutException: 500 with a fixed JSON body;
  - any other exception: 500 with a hand-built JSON body embedding the
    exception text verbatim.

The embedding below models the handler as a pure function from the
parsed request and the outcome of the single outbound fetch to the
response, and also records the outbound request the handler issues.
-/

/-- The double-quote character, written via its code point. -/
def dquote : Char := Char.ofNat 34

/-- The backslash character, written via its code point. -/
def backslash : Char := Char.ofNat 92

/-- The left curly brace character, written via its code point. -/
def lbrace : Char := Char.ofNat 123

/-- The right curly brace character, written via its code point. -/
def rbrace : Char := Char.ofNat 125

/-- JSON insignificant whitespace characters (RFC 8259 section 2). -/
def jsonWsChar (c : Char) : Bool :=
  c = ' ' || c = '\t' || c = '\n' || c = '\r'

/-- Drop leading JSON whitespace. -/
def skipWs : List Char → List Char
  | [] => []
  | c :: cs => if jsonWsChar c then skipWs cs else c :: cs

/-- Characters that may occur in a JSON number token; this is a superset
of the RFC 8259 number grammar, which only makes the validity checker
more permissive. -/
def jsonNumChar (c : Char) : Bool :=
  c.isDigit || c = '-' || c = '+' || c = '.' || c = 'e' || c = 'E'

/-- Consume the remainder of a JSON string after its opening quote,
returning the input after the closing quote.  Escape handling is a
superset of RFC 8259: any single character may follow a backslash. -/
def jsonStrRest : List Char → Option (List Char)
  | [] => none
  | c :: cs =>
    if c = dquote then some cs
    else if c = backslash then
      match cs with
      | [] => none
      | _ :: cs2 => jsonStrRest cs2
    else jsonStrRest cs

/-- Consume an exact character sequence. -/
def dropExact : List Char → List Char → Option (List Char)
  | [], cs => some cs
  | p :: ps, c :: cs => if c = p then dropExact ps cs else none
  | _ :: _, [] => none

mutual

/-- Consume one JSON value, fuelled; returns the rest of the input. -/
def jsonValueRest : Nat → List Char → Option (List Char)
  | 0, _ => none
  | fuel + 1, cs =>
    match cs with
    | [] => none
    | c :: rest =>
      if c = dquote then jsonStrRest rest
      else if c = lbrace then jsonObjRest fuel (skipWs rest)
      else if c = '[' then jsonArrRest fuel (skipWs rest)
      else if c = 't' then dropExact ['r', 'u', 'e'] rest
      else if c = 'f' then dropExact ['a', 'l', 's', 'e'] rest
      else if c = 'n' then dropExact ['u', 'l', 'l'] rest
      else if jsonNumChar c then some (rest.dropWhile jsonNumChar)
      else none

/-- After an opening brace (whitespace skipped): a closing brace or the
first member. -/
def jsonObjRest : Nat → List Char → Option (List Char)
  | 0, _ => none
  | fuel + 1, cs =>
    match cs with
    | [] => none
    | c :: rest =>
      if c = rbrace then some rest
      else if c = dquote then
        match jsonStrRest rest with
        | none => none
        | some afterKey =>
          match skipWs afterKey with
          | ':' :: afterColon =>
            match jsonValueRest fuel (skipWs afterColon) with
            | none => none
            | some afterVal => jsonObjMore fuel (skipWs afterVal)
          | _ => none
      else none

/-- After a member of an object (whitespace skipped): a comma and a
further member, or the closing brace. -/
def jsonObjMore : Nat → List Char → Option (List Char)
  | 0, _ => none
  | fuel + 1, cs =>
    match cs with
    | [] => none
    | c :: rest =>
      if c = rbrace then some rest
      else if c = ',' then
        match skipWs rest with
        | [] => none
        | k :: rest2 =>
          if k = dquote then
            match jsonStrRest rest2 with
            | none => none
            | some afterKey =>
              match skipWs afterKey with
              | ':' :: afterColon =>
                match jsonValueRest fuel (skipWs afterColon) with
                | none => none
                | some afterVal => jsonObjMore fuel (skipWs afterVal)
              | _ => none
          else none
      else none

/-- After an opening bracket (whitespace skipped): a closing bracket or
the first element. -/
def jsonArrRest : Nat → List Char → Option (List Char)
  | 0, _ => none
  | fuel + 1, cs =>
    match cs with
    | [] => none
    | c :: _ =>
      if c = ']' then some (cs.drop 1)
      else
        match jsonValueRest fuel cs with
        | none => none
        | some afterVal => jsonArrMore fuel (skipWs afterVal)

/-- After an element of an array (whitespace skipped): a comma and a
further element, or the closing bracket. -/
def jsonArrMore : Nat → List Char → Option (List Char)
  | 0, _ => none
  | fuel + 1, cs =>
    match cs with
    | [] => none
    | c :: rest =>
      if c = ']' then some rest
      else if c = ',' then
        match jsonValueRest fuel (skipWs rest) with
        | none => none
        | some afterVal => jsonArrMore fuel (skipWs afterVal)
      else none

end

/-- Whether a string is a JSON text.  The grammar implemented is a
superset of RFC 8259 (lenient number tokens and string escapes), so a
string this checker rejects is in particular not valid JSON. -/
def jsonValid (s : String) : Bool :=
  match jsonValueRest (s.length + 1) (skipWs s.toList) with
  | some rest => (skipWs rest).isEmpty
  | none => false

/-- The parsed request body, mirroring the pydantic model
`class ProxyRequest(BaseModel): url: str; key: Optional[str] = "unknown"`. -/
structure ProxyRequest where
  url : String
  key : String := "unknown"
  deriving DecidableEq

/-- A raw inbound JSON body before validation: each field present or
absent. -/
structure RawBody where
  url : Option String
  key : Option String
  deriving DecidableEq

/-- Pydantic validation of the body: `url` must be present (any string,
including the empty string); a missing `key` defaults to "unknown".
`none` models the framework-level 422 validation rejection. -/
def parseProxyRequest (raw : RawBody) : Option ProxyRequest :=
  match raw.url with
  | none => none
  | some u => some { url := u, key := raw.key.getD "unknown" }

/-- The upstream HTTP response exposed by httpx: status code, raw body
bytes, and headers (httpx header lookup is case-insensitive). -/
structure UpstreamResponse where
  status_code : Nat
  content : List Nat
  headers : List (String × String)
  deriving DecidableEq

/-- The outcome of the awaited `client.get`: a response, an
`httpx.TimeoutException`, or any other exception carrying its `str(e)`
text.  These constructors cover every outcome the `try` block can see. -/
inductive FetchResult where
  | ok (resp : UpstreamResponse)
  | timeoutExc
  | exc (msg : String)
  deriving DecidableEq

/-- A response body: raw bytes (success branch) or a Python string
(error branches). -/
inductive Body where
  | bytes (bs : List Nat)
  | str (s : String)
  deriving DecidableEq

/-- The FastAPI `Response(...)` constructor arguments the handler uses:
content, status code (defaulting to 200 when not passed), media type,
and the explicit extra headers dict (empty when not passed). -/
structure HttpResponse where
  content : Body
  status_code : Nat
  media_type : String
  headers : List (String × String)
  deriving DecidableEq

/-- The outbound request issued inside the `try` block:
`client.get(request.url, headers={"User-Agent": "SyftBox-Proxy/1.0"})`
with `httpx.AsyncClient(timeout=60.0)`. -/
structure OutboundRequest where
  method : String
  url : String
  headers : List (String × String)
  body : Option (List Nat)
  timeoutSeconds : Nat
  deriving DecidableEq

/-- The single outbound GET the handler builds from the request. -/
def outboundRequest (request : ProxyRequest) : OutboundRequest :=
  { method := "GET"
    url := request.url
    headers := [("User-Agent", "SyftBox-Proxy/1.0")]
    body := none
    timeoutSeconds := 60 }

/-- Case-insensitive header lookup, as `response.headers.get(name)`. -/
def getHeader (hs : List (String × String)) (name : String) : Option String :=
  (hs.find? (fun p => p.1.toLower = name.toLower)).map (fun p => p.2)

/-- The f-string body of the non-200 branch:
`'\x7b\x7b"error": "HTTP \x7bresponse.status_code\x7d"\x7d\x7d'`. -/
def httpErrorBody (code : Nat) : String :=
  "\x7b\"error\": \"HTTP " ++ toString code ++ "\"\x7d"

/-- The literal body of the timeout branch. -/
def timeoutBody : String :=
  "\x7b\"error\": \"Request timeout\"\x7d"

/-- The f-string body of the generic failure branch; `str(e)` is spliced
in verbatim, with no escaping. -/
def proxyErrorBody (msg : String) : String :=
  "\x7b\"error\": \"Proxy error\", \"message\": \"" ++ msg ++ "\"\x7d"

/-- The branch dispatch of `proxy_download` on the outcome of the
outbound fetch, mirroring the source line by line. -/
def handleOutcome (result : FetchResult) : HttpResponse :=
  match result with
  | FetchResult.ok resp =>
    if resp.status_code ≠ 200 then
      { content := Body.str (httpErrorBody resp.status_code)
        status_code := resp.status_code
        media_type := "application/json"
        headers := [] }
    else
      { content := Body.bytes resp.content
        status_code := 200
        media_type := (getHeader resp.headers "content-type").getD "application/octet-stream"
        headers := [("Cache-Control", "no-cache")] }
  | FetchResult.timeoutExc =>
      { content := Body.str timeoutBody
        status_code := 500
        media_type := "application/json"
        headers := [] }
  | FetchResult.exc msg =>
      { content := Body.str (proxyErrorBody msg)
        status_code := 500
        media_type := "application/json"
        headers := [] }

/-- The handler: it issues exactly the one outbound request built by
`outboundRequest`, consults the upstream (modelled as a function from
the outbound request to the fetch outcome), and maps the outcome to a
response.  The second component records the outbound requests issued. -/
def proxy_download (request : ProxyRequest) (upstream : OutboundRequest → FetchResult) :
    HttpResponse × List OutboundRequest :=
  (handleOutcome (upstream (outboundRequest request)), [outboundRequest request])

/-- A sequence of independent calls to the handler; the server holds no
state between calls. -/
def serve (calls : List (ProxyRequest × (OutboundRequest → FetchResult))) :
    List HttpResponse :=
  calls.map (fun call => (proxy_download call.1 call.2).1)

/-- String length distributes over append. -/
theorem strLength_append (a b : String) : (a ++ b).length = a.length + b.length :=
  String.length_append a b

/-- C1: when the upstream GET returns HTTP 200 with body bytes B, the
handler responds with status 200, body exactly B, content-type equal to
the upstream Content-Type header when present and
application/octet-stream otherwise, and a Cache-Control: no-cache
response header. -/
theorem proxy_success_response (req : ProxyRequest) (u : OutboundRequest → FetchResult)
    (resp : UpstreamResponse)
    (hu : u (outboundRequest req) = FetchResult.ok resp)
    (h200 : resp.status_code = 200) :
    (proxy_download req u).1.status_code = 200 ∧
    (proxy_download req u).1.content = Body.bytes resp.content ∧
    (∀ t, getHeader resp.headers "content-type" = some t →
      (proxy_download req u).1.media_type = t) ∧
    (getHeader resp.headers "content-type" = none →
      (proxy_download req u).1.media_type = "application/octet-stream") ∧
    (proxy_download req u).1.headers = [("Cache-Control", "no-cache")] := by
  have hr : (proxy_download req u).1 = handleOutcome (FetchResult.ok resp) := by
    simp [proxy_download, hu]
  rw [hr]
  refine ⟨?_, ?_, ?_, ?_, ?_⟩
  · simp [handleOutcome, h200]
  · simp [handleOutcome, h200]
  · intro t ht
    simp [handleOutcome, h200, ht]
  · intro hn
    simp [handleOutcome, h200, hn]
  · simp [handleOutcome, h200]

/-- Witness for C1 at a concrete request and upstream response. -/
theorem proxy_success_response_witness :
    (proxy_download { url := "http://u" } (fun _ =>
      FetchResult.ok { status_code := 200
                       content := [1, 2, 3]
                       headers := [("Content-Type", "text/plain")] })).1.content =
      Body.bytes [1, 2, 3] :=
  (proxy_success_response { url := "http://u" }
    (fun _ => FetchResult.ok { status_code := 200
                               content := [1, 2, 3]
                               headers := [("Content-Type", "text/plain")] })
    { status_code := 200
      content := [1, 2, 3]
      headers := [("Content-Type", "text/plain")] } rfl rfl).2.1

/-- C2: when the upstream GET returns any status other than 200
(301 included), the handler mirrors that status, answers the JSON error
body with the decimal numeral of the status, content-type
application/json, and the upstream body is discarded. -/
theorem proxy_non200_response (req : ProxyRequest) (u : OutboundRequest → FetchResult)
    (resp : UpstreamResponse)
    (hu : u (outboundRequest req) = FetchResult.ok resp)
    (hs : resp.status_code ≠ 200) :
    (proxy_download req u).1.status_code = resp.status_code ∧
    (proxy_download req u).1.content =
      Body.str ("\x7b\"error\": \"HTTP " ++ toString resp.status_code ++ "\"\x7d") ∧
    (proxy_download req u).1.media_type = "application/json" ∧
    ∀ bs, handleOutcome (FetchResult.ok { resp with content := bs }) =
      handleOutcome (FetchResult.ok resp) := by
  have hr : (proxy_download req u).1 = handleOutcome (FetchResult.ok resp) := by
    simp [proxy_download, hu]
  rw [hr]
  refine ⟨?_, ?_, ?_, ?_⟩
  · simp [handleOutcome, hs]
  · simp [handleOutcome, hs, httpErrorBody]
  · simp [handleOutcome, hs]
  · intro bs
    simp [handleOutcome, hs]

/-- Witness for C2 at a concrete upstream 301 response. -/
theorem proxy_non200_response_witness :
    (proxy_download { url := "http://u" } (fun _ =>
      FetchResult.ok { status_code := 301, content := [7], headers := [] })).1.status_code = 301 ∧
    (proxy_download { url := "http://u" } (fun _ =>
      FetchResult.ok { status_code := 301, content := [7], headers := [] })).1.content =
      Body.str "\x7b\"error\": \"HTTP 301\"\x7d" := by
  have h := proxy_non200_response { url := "http://u" } (fun _ =>
    FetchResult.ok { status_code := 301, content := [7], headers := [] })
    { status_code := 301, content := [7], headers := [] } rfl (by decide)
  exact ⟨h.1, h.2.1.trans (by decide)⟩

/-- C3: when the outbound fetch fails with a non-timeout failure, the
handler responds 500 with content-type application/json and the
hand-built body embedding the failure text verbatim, and for some
failure text containing a double quote that body is not valid JSON. -/
theorem proxy_fetch_error_response (req : ProxyRequest) (u : OutboundRequest → FetchResult)
    (msg : String) (hu : u (outboundRequest req) = FetchResult.exc msg) :
    (proxy_download req u).1.status_code = 500 ∧
    (proxy_download req u).1.media_type = "application/json" ∧
    (proxy_download req u).1.content =
      Body.str ("\x7b\"error\": \"Proxy error\", \"message\": \"" ++ msg ++ "\"\x7d") ∧
    ∃ d : String, d.toList.contains dquote = true ∧
      jsonValid ("\x7b\"error\": \"Proxy error\", \"message\": \"" ++ d ++ "\"\x7d") = false := by
  have hr : (proxy_download req u).1 = handleOutcome (FetchResult.exc msg) := by
    simp [proxy_download, hu]
  rw [hr]
  refine ⟨rfl, rfl, ?_, ⟨"a\"b", by decide, by decide⟩⟩
  simp [handleOutcome, proxyErrorBody]

/-- Witness for C3 at a concrete failing fetch. -/
theorem proxy_fetch_error_response_witness :
    (proxy_download { url := "http://u" } (fun _ =>
      FetchResult.exc "boom")).1.status_code = 500 ∧
    jsonValid (proxyErrorBody "a\"b") = false := by
  have h := proxy_fetch_error_response { url := "http://u" }
    (fun _ => FetchResult.exc "boom") "boom" rfl
  exact ⟨h.1, by decide⟩

/-- C4: when the outbound fetch times out, the handler responds 500 with
the fixed timeout body and content-type application/json, and the body
is never the generic proxy-error body, whatever the failure text. -/
theorem proxy_timeout_response (req : ProxyRequest) (u : OutboundRequest → FetchResult)
    (hu : u (outboundRequest req) = FetchResult.timeoutExc) :
    (proxy_download req u).1.status_code = 500 ∧
    (proxy_download req u).1.content = Body.str "\x7b\"error\": \"Request timeout\"\x7d" ∧
    (proxy_download req u).1.media_type = "application/json" ∧
    ∀ msg : String, (proxy_download req u).1.content ≠ Body.str (proxyErrorBody msg) := by
  have hr : (proxy_download req u).1 = handleOutcome FetchResult.timeoutExc := by
    simp [proxy_download, hu]
  rw [hr]
  refine ⟨rfl, rfl, rfl, ?_⟩
  intro msg h
  have h3 : timeoutBody = proxyErrorBody msg := by
    simpa [handleOutcome] using h
  simp only [timeoutBody, proxyErrorBody] at h3
  have h4 := congrArg String.length h3
  simp only [strLength_append] at h4
  have e1 : ("\x7b\"error\": \"Request timeout\"\x7d" : String).length = 28 := by decide
  have e2 : ("\x7b\"error\": \"Proxy error\", \"message\": \"" : String).length = 37 := by decide
  have e3 : ("\"\x7d" : String).length = 2 := by decide
  rw [e1, e2, e3] at h4
  omega

/-- Witness for C4 at a concrete timed-out fetch. -/
theorem proxy_timeout_response_witness :
    (proxy_download { url := "http://u" } (fun _ =>
      FetchResult.timeoutExc)).1.content =
      Body.str "\x7b\"error\": \"Request timeout\"\x7d" ∧
    (proxy_download { url := "http://u" } (fun _ =>
      FetchResult.timeoutExc)).1.content ≠ Body.str (proxyErrorBody "boom") := by
  have h := proxy_timeout_response { url := "http://u" }
    (fun _ => FetchResult.timeoutExc) rfl
  exact ⟨h.2.1, h.2.2.2 "boom"⟩

/-- C5: the handler is total over fetch outcomes: every outcome of the
single outbound fetch falls into exactly one of the four specified
branches, and in each the handler produces the specified response. -/
theorem proxy_total_dispatch (req : ProxyRequest) (u : OutboundRequest → FetchResult) :
    (∃ resp, u (outboundRequest req) = FetchResult.ok resp ∧ resp.status_code = 200 ∧
      (proxy_download req u).1 =
        { content := Body.bytes resp.content
          status_code := 200
          media_type := (getHeader resp.headers "content-type").getD "application/octet-stream"
          headers := [("Cache-Control", "no-cache")] }) ∨
    (∃ resp, u (outboundRequest req) = FetchResult.ok resp ∧ resp.status_code ≠ 200 ∧
      (proxy_download req u).1 =
        { content := Body.str (httpErrorBody resp.status_code)
          status_code := resp.status_code
          media_type := "application/json"
          headers := [] }) ∨
    (u (outboundRequest req) = FetchResult.timeoutExc ∧
      (proxy_download req u).1 =
        { content := Body.str timeoutBody
          status_code := 500
          media_type := "application/json"
          headers := [] }) ∨
    (∃ msg, u (outboundRequest req) = FetchResult.exc msg ∧
      (proxy_download req u).1 =
        { content := Body.str (proxyErrorBody msg)
          status_code := 500
          media_type := "application/json"
          headers := [] }) := by
  cases hu : u (outboundRequest req) with
  | ok resp =>
    by_cases h : resp.status_code = 200
    · exact Or.inl ⟨resp, rfl, h, by simp [proxy_download, hu, handleOutcome, h]⟩
    · exact Or.inr (Or.inl ⟨resp, rfl, h, by simp [proxy_download, hu, handleOutcome, h]⟩)
  | timeoutExc =>
    exact Or.inr (Or.inr (Or.inl ⟨rfl, by simp [proxy_download, hu, handleOutcome]⟩))
  | exc msg =>
    exact Or.inr (Or.inr (Or.inr ⟨msg, rfl, by simp [proxy_download, hu, handleOutcome]⟩))

/-- C6: the key field never influences the response: a missing key
parses to the default "unknown", and two requests differing only in key
get identical responses (and identical outbound requests) under the same
upstream. -/
theorem key_does_not_affect_response (url k1 k2 : String)
    (u : OutboundRequest → FetchResult) :
    parseProxyRequest { url := some url, key := none } =
      some { url := url, key := "unknown" } ∧
    proxy_download { url := url, key := k1 } u =
      proxy_download { url := url, key := k2 } u :=
  ⟨rfl, rfl⟩

/-- C7: every call issues exactly one outbound request: a GET to the
request url passed through verbatim, with the User-Agent header, no
body, and a 60 second timeout. -/
theorem exactly_one_outbound_get (req : ProxyRequest) (u : OutboundRequest → FetchResult) :
    (proxy_download req u).2 =
      [{ method := "GET"
         url := req.url
         headers := [("User-Agent", "SyftBox-Proxy/1.0")]
         body := none
         timeoutSeconds := 60 }] :=
  rfl

/-- C8: the handler is stateless: the same call served twice against the
same upstream yields two identical responses, and a call's response is
unchanged by whatever other calls surround it. -/
theorem proxy_stateless_idempotent (req : ProxyRequest)
    (u : OutboundRequest → FetchResult) :
    serve [(req, u), (req, u)] =
      [(proxy_download req u).1, (proxy_download req u).1] ∧
    ∀ before after, serve (before ++ (req, u) :: after) =
      serve before ++ (proxy_download req u).1 :: serve after := by
  refine ⟨rfl, ?_⟩
  intro before after
  simp [serve]

/-- C9: a present but empty url string passes validation, so the handler
runs; when the resulting fetch fails, the caller gets the handler's 500
proxy-error response, not a validation rejection. -/
theorem empty_url_reaches_handler (k : Option String)
    (u : OutboundRequest → FetchResult) (msg : String)
    (hu : u (outboundRequest { url := "", key := k.getD "unknown" }) = FetchResult.exc msg) :
    parseProxyRequest { url := some "", key := k } =
      some { url := "", key := k.getD "unknown" } ∧
    (proxy_download { url := "", key := k.getD "unknown" } u).1.status_code = 500 ∧
    (proxy_download { url := "", key := k.getD "unknown" } u).1.media_type = "application/json" ∧
    (proxy_download { url := "", key := k.getD "unknown" } u).1.content =
      Body.str (proxyErrorBody msg) := by
  refine ⟨rfl, ?_, ?_, ?_⟩ <;> simp [proxy_download, hu, handleOutcome]

/-- Witness for C9 at a concrete empty-url request. -/
theorem empty_url_reaches_handler_witness :
    parseProxyRequest { url := some "", key := none } =
      some { url := "", key := "unknown" } ∧
    (proxy_download { url := "", key := "unknown" } (fun _ =>
      FetchResult.exc "missing protocol")).1.status_code = 500 := by
  have h := empty_url_reaches_handler none (fun _ =>
    FetchResult.exc "missing protocol") "missing protocol" rfl
  exact ⟨h.1, h.2.1⟩

/-- C10: the error branches carry no extra response header (in
particular no Cache-Control), the success branch carries exactly the
Cache-Control header, and upstream headers influence the response only
through the content-type lookup. -/
theorem response_header_frame (resp : UpstreamResponse) (msg : String) :
    (resp.status_code ≠ 200 → (handleOutcome (FetchResult.ok resp)).headers = []) ∧
    (handleOutcome FetchResult.timeoutExc).headers = [] ∧
    (handleOutcome (FetchResult.exc msg)).headers = [] ∧
    (resp.status_code = 200 →
      (handleOutcome (FetchResult.ok resp)).headers = [("Cache-Control", "no-cache")]) ∧
    (∀ resp2 : UpstreamResponse, resp2.status_code = resp.status_code →
      resp2.content = resp.content →
      getHeader resp2.headers "content-type" = getHeader resp.headers "content-type" →
      handleOutcome (FetchResult.ok resp2) = handleOutcome (FetchResult.ok resp)) := by
  refine ⟨?_, rfl, rfl, ?_, ?_⟩
  · intro h
    simp [handleOutcome, h]
  · intro h
    simp [handleOutcome, h]
  · intro resp2 hs hc hh
    by_cases h : resp.status_code = 200
    · have h2 : resp2.status_code = 200 := hs.trans h
      simp [handleOutcome, h, h2, hc, hh]
    · have h2 : resp2.status_code ≠ 200 := by
        rw [hs]; exact h
      simp [handleOutcome, h, h2, hs]

/-- Witness for C10 at a concrete 404 upstream response. -/
theorem response_header_frame_witness :
    (handleOutcome (FetchResult.ok
      { status_code := 404, content := [], headers := [] })).headers = [] :=
  (response_header_frame { status_code := 404, content := [], headers := [] } "m").1
    (by decide)
